import Mathlib

/-!
Shallow embedding of the PokéFusion REST API fusion engine
(src/services/fusion.service.js, src/services/pokemon.service.js,
src/services/image.service.js and src/controllers/fusion.controller.js of the
final revision), together with theorems settling the specification claims.

JavaScript values are modelled as follows: numeric record fields that may be
absent are `Option Nat` (the code applies `x || 0` to them), textual fields
that may be absent are `Option String` (the code applies `x || ''`), JS
strings are Lean `String` manipulated through their character lists, JS `Map`
objects are association lists preserving insertion order, and the random
draws made by the services are passed in explicitly as natural numbers.
-/

/-- A creature record as loaded from the FusionDex data file.  Field names
follow the JSON shape consumed by `pokemon.service.js`. -/
structure Pokemon where
  id : Nat
  fullName : String
  types : List String
  hp : Option Nat
  attack : Option Nat
  defense : Option Nat
  specialAttack : Option Nat
  specialDefense : Option Nat
  speed : Option Nat
  pokedexEntry : Option String
  category : Option String
  height : Option String
  weight : Option String
deriving Repr, DecidableEq

/-- The six fused base stats plus their total, mirroring the keys of the
`fusedStats` object built by `FusionService.calculateBaseStats`. -/
structure FusedStats where
  HP : Nat
  SPECIAL_DEFENSE : Nat
  SPECIAL_ATTACK : Nat
  ATTACK : Nat
  DEFENSE : Nat
  SPEED : Nat
  TOTAL : Nat
deriving Repr, DecidableEq

/-- `FusionService.calculateFusedStats`: `Math.floor((2 * dominantStat) / 3) +
Math.floor(otherStat / 3)` on non-negative integers is `Nat` division. -/
def calculateFusedStats (dominantStat otherStat : Nat) : Nat :=
  2 * dominantStat / 3 + otherStat / 3

/-- `FusionService.calculateBaseStats`: head-dominant HP / SPECIAL_DEFENSE /
SPECIAL_ATTACK, body-dominant ATTACK / DEFENSE / SPEED, and TOTAL summing the
six values present in the object when the reduce runs.  A missing stat field
enters the formula as 0 (the `|| 0` fallback in the source). -/
def calculateBaseStats (headPokemon bodyPokemon : Pokemon) : FusedStats :=
  let headHP := headPokemon.hp.getD 0
  let headSDEF := headPokemon.specialDefense.getD 0
  let headSATK := headPokemon.specialAttack.getD 0
  let headATK := headPokemon.attack.getD 0
  let headDEF := headPokemon.defense.getD 0
  let headSPD := headPokemon.speed.getD 0
  let bodyHP := bodyPokemon.hp.getD 0
  let bodySDEF := bodyPokemon.specialDefense.getD 0
  let bodySATK := bodyPokemon.specialAttack.getD 0
  let bodyATK := bodyPokemon.attack.getD 0
  let bodyDEF := bodyPokemon.defense.getD 0
  let bodySPD := bodyPokemon.speed.getD 0
  let fusedHP := calculateFusedStats headHP bodyHP
  let fusedSDEF := calculateFusedStats headSDEF bodySDEF
  let fusedSATK := calculateFusedStats headSATK bodySATK
  let fusedATK := calculateFusedStats bodyATK headATK
  let fusedDEF := calculateFusedStats bodyDEF headDEF
  let fusedSPD := calculateFusedStats bodySPD headSPD
  { HP := fusedHP
    SPECIAL_DEFENSE := fusedSDEF
    SPECIAL_ATTACK := fusedSATK
    ATTACK := fusedATK
    DEFENSE := fusedDEF
    SPEED := fusedSPD
    TOTAL := fusedHP + fusedSDEF + fusedSATK + fusedATK + fusedDEF + fusedSPD }

/-- `FusionService.calculateType1`: promote the secondary type when the head
is exactly Normal/Flying, otherwise take the head's first type.  The result
is `none` when the head has no types, matching `headTypes[0]` being
`undefined` in the source. -/
def calculateType1 (headPokemon : Pokemon) : Option String :=
  let headTypes := headPokemon.types
  if headTypes.get? 0 = some "NORMAL" ∧ headTypes.get? 1 = some "FLYING" then
    headTypes.get? 1
  else
    headTypes.get? 0

/-- `FusionService.calculateType2`: the body's first type when its second
type equals the already computed first fusion type, otherwise the body's
second type (which may be absent). -/
def calculateType2 (bodyPokemon : Pokemon) (type1 : Option String) : Option String :=
  let bodyTypes := bodyPokemon.types
  if bodyTypes.get? 1 = type1 then
    bodyTypes.get? 0
  else
    bodyTypes.get? 1

/-- Duplicate removal keeping first occurrences, the behaviour of
`[...new Set(types)]` on an array: an element already seen is skipped. -/
def dedupKeepFirstAux (seen : List String) : List String → List String
  | [] => []
  | a :: rest =>
    if seen.contains a then dedupKeepFirstAux seen rest
    else a :: dedupKeepFirstAux (a :: seen) rest

/-- Duplicate removal keeping first occurrences (`[...new Set(types)]`). -/
def dedupKeepFirst (l : List String) : List String :=
  dedupKeepFirstAux [] l

/-- `FusionService.calculateTypes`: build the two candidate types, drop
absent or empty values (the `type && type !== undefined` filter) and remove
duplicates preserving order. -/
def calculateTypes (headPokemon bodyPokemon : Pokemon) : List String :=
  dedupKeepFirst
    (([calculateType1 headPokemon,
       calculateType2 bodyPokemon (calculateType1 headPokemon)].filterMap id).filter
      (fun t => t ≠ ""))

/-- The record with every missing stat field replaced by an explicit 0,
leaving present stats unchanged. -/
def zeroFillStats (p : Pokemon) : Pokemon :=
  { p with
    hp := some (p.hp.getD 0)
    attack := some (p.attack.getD 0)
    defense := some (p.defense.getD 0)
    specialAttack := some (p.specialAttack.getD 0)
    specialDefense := some (p.specialDefense.getD 0)
    speed := some (p.speed.getD 0) }

/-- A convenience constructor for records that only carry base stats, used in
concrete instances of the stat claims. -/
def mkStatsPokemon (hp atk df satk sdef spd : Nat) : Pokemon :=
  { id := 0
    fullName := ""
    types := []
    hp := some hp
    attack := some atk
    defense := some df
    specialAttack := some satk
    specialDefense := some sdef
    speed := some spd
    pokedexEntry := none
    category := none
    height := none
    weight := none }

/-- A mono-typed FIRE record used in the type-claim instances. -/
def monoFirePokemon : Pokemon :=
  { mkStatsPokemon 0 0 0 0 0 0 with types := ["FIRE"] }

/-- C1: for records with all six base stats present, `calculateBaseStats`
derives HP, SPECIAL_ATTACK and SPECIAL_DEFENSE head-dominantly as
floor(2*headStat/3) + floor(bodyStat/3), derives ATTACK, DEFENSE and SPEED
body-dominantly as floor(2*bodyStat/3) + floor(headStat/3), and sets TOTAL to
the sum of the six derived stats; in particular head HP 45 with body HP 39
gives fused HP 30 + 13 = 43. -/
theorem C1_base_stats_formula :
    (∀ (hid bid : Nat) (hname bname : String) (htypes btypes : List String)
      (hhp hatk hdef hsatk hsdef hspd bhp batk bdef bsatk bsdef bspd : Nat)
      (hdx bdx hcat bcat hht bht hwt bwt : Option String),
      calculateBaseStats
        { id := hid, fullName := hname, types := htypes,
          hp := some hhp, attack := some hatk, defense := some hdef,
          specialAttack := some hsatk, specialDefense := some hsdef,
          speed := some hspd,
          pokedexEntry := hdx, category := hcat, height := hht, weight := hwt }
        { id := bid, fullName := bname, types := btypes,
          hp := some bhp, attack := some batk, defense := some bdef,
          specialAttack := some bsatk, specialDefense := some bsdef,
          speed := some bspd,
          pokedexEntry := bdx, category := bcat, height := bht, weight := bwt } =
        { HP := 2 * hhp / 3 + bhp / 3
          SPECIAL_DEFENSE := 2 * hsdef / 3 + bsdef / 3
          SPECIAL_ATTACK := 2 * hsatk / 3 + bsatk / 3
          ATTACK := 2 * batk / 3 + hatk / 3
          DEFENSE := 2 * bdef / 3 + hdef / 3
          SPEED := 2 * bspd / 3 + hspd / 3
          TOTAL := (2 * hhp / 3 + bhp / 3) + (2 * hsdef / 3 + bsdef / 3) +
            (2 * hsatk / 3 + bsatk / 3) + (2 * batk / 3 + hatk / 3) +
            (2 * bdef / 3 + hdef / 3) + (2 * bspd / 3 + hspd / 3) }) ∧
    (calculateBaseStats (mkStatsPokemon 45 49 49 65 65 45)
      (mkStatsPokemon 39 52 43 60 50 65)).HP = 30 + 13 := by
  constructor
  · intros
    rfl
  · rfl

/-- C10: `calculateBaseStats` is total over records with missing stat fields:
a missing field enters the formulas as 0, the result always carries all six
stats plus a TOTAL equal to their sum, and a head record with no hp field
yields fused HP = floor(2*0/3) + floor(bodyHp/3). -/
theorem C10_base_stats_total_on_missing_fields :
    (∀ headPokemon bodyPokemon : Pokemon,
      calculateBaseStats headPokemon bodyPokemon =
        calculateBaseStats (zeroFillStats headPokemon) (zeroFillStats bodyPokemon)) ∧
    (∀ headPokemon bodyPokemon : Pokemon,
      (calculateBaseStats headPokemon bodyPokemon).TOTAL =
        (calculateBaseStats headPokemon bodyPokemon).HP +
        (calculateBaseStats headPokemon bodyPokemon).SPECIAL_DEFENSE +
        (calculateBaseStats headPokemon bodyPokemon).SPECIAL_ATTACK +
        (calculateBaseStats headPokemon bodyPokemon).ATTACK +
        (calculateBaseStats headPokemon bodyPokemon).DEFENSE +
        (calculateBaseStats headPokemon bodyPokemon).SPEED) ∧
    (∀ headPokemon bodyPokemon : Pokemon,
      headPokemon.hp = none →
      (calculateBaseStats headPokemon bodyPokemon).HP =
        2 * 0 / 3 + bodyPokemon.hp.getD 0 / 3) := by
  refine ⟨fun headPokemon bodyPokemon => ?_, fun headPokemon bodyPokemon => ?_,
    fun headPokemon bodyPokemon h => ?_⟩
  · simp [calculateBaseStats, zeroFillStats]
  · rfl
  · simp [calculateBaseStats, calculateFusedStats, h]

/-- C10 witness: a head record with no hp field next to a body with HP 75. -/
theorem C10_base_stats_total_on_missing_fields_witness :
    (calculateBaseStats { mkStatsPokemon 0 1 2 3 4 5 with hp := none }
      (mkStatsPokemon 75 0 0 0 0 0)).HP = 2 * 0 / 3 + 75 / 3 := by
  have h := C10_base_stats_total_on_missing_fields.2.2
    { mkStatsPokemon 0 1 2 3 4 5 with hp := none } (mkStatsPokemon 75 0 0 0 0 0) rfl
  simpa using h

/-- Lists of length 1 or 2 have one of two explicit shapes. -/
theorem typesShape (l : List String) (h1 : 1 ≤ l.length) (h2 : l.length ≤ 2) :
    (∃ a, l = [a]) ∨ (∃ a b, l = [a, b]) := by
  match l with
  | [] => simp at h1
  | [a] => exact Or.inl ⟨a, rfl⟩
  | [a, b] => exact Or.inr ⟨a, b, rfl⟩
  | a :: b :: c :: rest => simp [List.length] at h2

theorem dedupKeepFirst_single (a : String) : dedupKeepFirst [a] = [a] := rfl

theorem dedupKeepFirst_pair (a b : String) :
    dedupKeepFirst [a, b] = if b = a then [a] else [a, b] := by
  by_cases h : b = a <;>
    simp [dedupKeepFirst, dedupKeepFirstAux, List.contains, h]

/-- The first fused type as worded by the specification: Flying when the
head's type pair is exactly (Normal, Flying) in that order, else the head's
first type. -/
def claimType1 (headPokemon : Pokemon) : String :=
  if headPokemon.types = ["NORMAL", "FLYING"] then "FLYING"
  else headPokemon.types.headD ""

/-- The second fused type as worded by the specification: the body's first
type when the body's second type equals `type1`, else the body's second type
(possibly absent). -/
def claimType2 (bodyPokemon : Pokemon) (type1 : String) : Option String :=
  if bodyPokemon.types.get? 1 = some type1 then bodyPokemon.types.get? 0
  else bodyPokemon.types.get? 1

theorem calculateType2_eq (bodyPokemon : Pokemon) (t1 : String) :
    calculateType2 bodyPokemon (some t1) = claimType2 bodyPokemon t1 := rfl

theorem calculateType1_eq (headPokemon : Pokemon)
    (h1 : 1 ≤ headPokemon.types.length) (h2 : headPokemon.types.length ≤ 2) :
    calculateType1 headPokemon = some (claimType1 headPokemon) := by
  obtain ⟨a, hH⟩ | ⟨a, b, hH⟩ := typesShape _ h1 h2
  · simp [calculateType1, claimType1, hH]
  · by_cases hn : a = "NORMAL" ∧ b = "FLYING"
    · obtain ⟨ha, hb⟩ := hn
      simp [calculateType1, claimType1, hH, ha, hb]
    · have hn' : ¬(a = "NORMAL" ∧ b = "FLYING") := hn
      simp [calculateType1, claimType1, hH, hn']

theorem claimType1_ne_empty (headPokemon : Pokemon)
    (h1 : 1 ≤ headPokemon.types.length) (h2 : headPokemon.types.length ≤ 2)
    (hht : ∀ t ∈ headPokemon.types, t ≠ "") : claimType1 headPokemon ≠ "" := by
  unfold claimType1
  split_ifs with h
  · simp
  · obtain ⟨a, hH⟩ | ⟨a, b, hH⟩ := typesShape _ h1 h2
    · rw [hH]
      simpa using hht a (by simp [hH])
    · rw [hH]
      simpa using hht a (by simp [hH])

theorem claimType2_ne_empty (bodyPokemon : Pokemon) (t1 : String)
    (hbt : ∀ t ∈ bodyPokemon.types, t ≠ "") :
    ∀ x, claimType2 bodyPokemon t1 = some x → x ≠ "" := by
  intro x hx
  unfold claimType2 at hx
  split_ifs at hx
  · exact hbt x (List.get?_mem hx)
  · exact hbt x (List.get?_mem hx)

theorem calculateTypes_eq (headPokemon bodyPokemon : Pokemon)
    (h1 : 1 ≤ headPokemon.types.length) (h2 : headPokemon.types.length ≤ 2)
    (hht : ∀ t ∈ headPokemon.types, t ≠ "")
    (hbt : ∀ t ∈ bodyPokemon.types, t ≠ "") :
    calculateTypes headPokemon bodyPokemon =
      dedupKeepFirst (claimType1 headPokemon ::
        (claimType2 bodyPokemon (claimType1 headPokemon)).toList) := by
  have ht1 : calculateType1 headPokemon = some (claimType1 headPokemon) :=
    calculateType1_eq headPokemon h1 h2
  have hne1 : claimType1 headPokemon ≠ "" := claimType1_ne_empty headPokemon h1 h2 hht
  unfold calculateTypes
  rw [ht1, calculateType2_eq]
  cases h2t : claimType2 bodyPokemon (claimType1 headPokemon) with
  | none => simp [hne1]
  | some x =>
    have hxne : x ≠ "" := claimType2_ne_empty bodyPokemon _ hbt x h2t
    simp [hne1, hxne]

/-- C2: for records each carrying 1 or 2 non-empty types, `calculateTypes`
returns the claim's type pair: type1 promotes Flying for a (Normal, Flying)
head and is otherwise the head's first type; type2 is the body's first type
when the body's second type equals type1, else the body's (possibly absent)
second type; absent types are dropped and duplicates removed preserving
order, leaving 1 or 2 entries; a mono-typed FIRE head fused with a
mono-typed FIRE body yields exactly ["FIRE"]. -/
theorem C2_fusion_types :
    (∀ headPokemon bodyPokemon : Pokemon,
      1 ≤ headPokemon.types.length → headPokemon.types.length ≤ 2 →
      (∀ t ∈ headPokemon.types, t ≠ "") →
      1 ≤ bodyPokemon.types.length → bodyPokemon.types.length ≤ 2 →
      (∀ t ∈ bodyPokemon.types, t ≠ "") →
      calculateTypes headPokemon bodyPokemon =
        dedupKeepFirst (claimType1 headPokemon ::
          (claimType2 bodyPokemon (claimType1 headPokemon)).toList) ∧
      1 ≤ (calculateTypes headPokemon bodyPokemon).length ∧
      (calculateTypes headPokemon bodyPokemon).length ≤ 2) ∧
    calculateTypes monoFirePokemon monoFirePokemon = ["FIRE"] := by
  constructor
  · intro headPokemon bodyPokemon h1 h2 hht h3 h4 hbt
    have heq := calculateTypes_eq headPokemon bodyPokemon h1 h2 hht hbt
    refine ⟨heq, ?_⟩
    rw [heq]
    cases claimType2 bodyPokemon (claimType1 headPokemon) with
    | none => simp [dedupKeepFirst_single]
    | some x =>
      rw [Option.toList_some, dedupKeepFirst_pair]
      split_ifs <;> simp
  · rfl

/-- C2 witness: a Grass/Poison head with a Water/Ice body keeps the head's
first type and the body's second type. -/
theorem C2_fusion_types_witness :
    calculateTypes { mkStatsPokemon 0 0 0 0 0 0 with types := ["GRASS", "POISON"] }
        { mkStatsPokemon 0 0 0 0 0 0 with types := ["WATER", "ICE"] } =
      ["GRASS", "ICE"] := by
  have h := (C2_fusion_types.1
    { mkStatsPokemon 0 0 0 0 0 0 with types := ["GRASS", "POISON"] }
    { mkStatsPokemon 0 0 0 0 0 0 with types := ["WATER", "ICE"] }
    (by decide) (by decide) (by decide) (by decide) (by decide) (by decide)).1
  simpa [claimType1, claimType2, dedupKeepFirst, dedupKeepFirstAux] using h

/-- JS `x || dflt` on a possibly-missing number: 0 and `undefined` are falsy. -/
def jsOrNat (v : Option Nat) (dflt : Nat) : Nat :=
  match v with
  | some n => if n ≠ 0 then n else dflt
  | none => dflt

/-- JS `s || dflt` on a string: only the empty string is falsy. -/
def jsOrStr (s dflt : String) : String :=
  if s ≠ "" then s else dflt

/-- Last character of a JS string, `undefined` when empty. -/
def strLast? (s : String) : Option Char :=
  s.data.getLast?

/-- First character of a JS string, `undefined` when empty. -/
def strFirst? (s : String) : Option Char :=
  s.data.head?

/-- JS `s.slice(0, -1)`: the string without its last character. -/
def strDropLast (s : String) : String :=
  String.mk s.data.dropLast

/-- `FusionService.calculateName`: remap both indices through
`NAT_DEX_MAPPING` (`|| index` fallback), fetch the split pairs with the
source's asymmetric fallback shapes, apply the `||` fallbacks for prefix and
suffix, elide a doubled boundary character, and concatenate.  The remap and
split tables are passed in as functions standing for the static GameData
tables. -/
def calculateName (natDexMapping : Nat → Option Nat)
    (splitNames : Nat → Option (String × String))
    (headIndex bodyIndex : Nat) (headData bodyData : Pokemon) : String :=
  let bodyNatDex := jsOrNat (natDexMapping bodyIndex) bodyIndex
  let headNatDex := jsOrNat (natDexMapping headIndex) headIndex
  let headSplits := (splitNames headNatDex).getD (headData.fullName, "")
  let bodySplits := (splitNames bodyNatDex).getD ("", bodyData.fullName)
  let namePre := jsOrStr headSplits.1 headData.fullName
  let nameSuf := jsOrStr bodySplits.2 (jsOrStr bodySplits.1 bodyData.fullName)
  if namePre ≠ "" ∧ nameSuf ≠ "" ∧ strLast? namePre = strFirst? nameSuf then
    strDropLast namePre ++ nameSuf
  else
    namePre ++ nameSuf

/-- The fusion name as worded by the specification claim: remap both ids
(identity when unmapped), take the remapped head's split prefix and the
remapped body's split suffix, fall back to the body's prefix when the suffix
is empty and to a `(fullName, "")` shape for ids absent from the split table,
drop the prefix's last character when it equals the suffix's first character,
and concatenate. -/
def specCalculateName (natDexMapping : Nat → Option Nat)
    (splitNames : Nat → Option (String × String))
    (headIndex bodyIndex : Nat) (headData bodyData : Pokemon) : String :=
  let headNatDex := (natDexMapping headIndex).getD headIndex
  let bodyNatDex := (natDexMapping bodyIndex).getD bodyIndex
  let headSplit := (splitNames headNatDex).getD (headData.fullName, "")
  let bodySplit := (splitNames bodyNatDex).getD (bodyData.fullName, "")
  let headPre := headSplit.1
  let bodySuf := if bodySplit.2 = "" then bodySplit.1 else bodySplit.2
  if headPre ≠ "" ∧ bodySuf ≠ "" ∧ strLast? headPre = strFirst? bodySuf then
    strDropLast headPre ++ bodySuf
  else
    headPre ++ bodySuf

theorem jsOrNat_eq_getD (o : Option Nat) (d : Nat) (h : ∀ v, o = some v → v ≠ 0) :
    jsOrNat o d = o.getD d := by
  cases o with
  | none => rfl
  | some v => simp [jsOrNat, h v rfl]

theorem jsOrStr_self (s : String) : jsOrStr s s = s := by
  unfold jsOrStr
  split_ifs <;> rfl

/-- C3: for every pair of ids and records, and any remap table that never
maps to 0 and split table whose stored prefixes are non-empty (as the curated
GameData tables are), `calculateName` computes exactly the specification's
name: remap both ids (identity when unmapped), splice the remapped head's
prefix with the remapped body's suffix (falling back to the body's prefix
when the suffix is empty and to `(fullName, "")` shapes for absent ids), and
elide the head prefix's last character when it equals, case-sensitively, the
body suffix's first character. -/
theorem C3_fusion_name (natDexMapping : Nat → Option Nat)
    (splitNames : Nat → Option (String × String))
    (headIndex bodyIndex : Nat) (headData bodyData : Pokemon)
    (hmap : ∀ i v, natDexMapping i = some v → v ≠ 0)
    (hsplit : ∀ i p s, splitNames i = some (p, s) → p ≠ "") :
    calculateName natDexMapping splitNames headIndex bodyIndex headData bodyData =
      specCalculateName natDexMapping splitNames headIndex bodyIndex headData bodyData := by
  have h1 : jsOrNat (natDexMapping headIndex) headIndex =
      (natDexMapping headIndex).getD headIndex :=
    jsOrNat_eq_getD _ _ (fun v hv => hmap headIndex v hv)
  have h2 : jsOrNat (natDexMapping bodyIndex) bodyIndex =
      (natDexMapping bodyIndex).getD bodyIndex :=
    jsOrNat_eq_getD _ _ (fun v hv => hmap bodyIndex v hv)
  simp only [calculateName, specCalculateName, h1, h2]
  cases hsh : splitNames ((natDexMapping headIndex).getD headIndex) with
  | none =>
    cases hsb : splitNames ((natDexMapping bodyIndex).getD bodyIndex) with
    | none =>
      simp only [Option.getD_none, Option.getD_some, jsOrStr_self]
      by_cases hb : bodyData.fullName = "" <;> simp [jsOrStr, hb]
    | some psb =>
      obtain ⟨pb, sb⟩ := psb
      have hpb : pb ≠ "" := hsplit _ _ _ hsb
      simp only [Option.getD_none, Option.getD_some, jsOrStr_self]
      by_cases hs : sb = "" <;> simp [jsOrStr, hs, hpb]
  | some psh =>
    obtain ⟨ph, sh⟩ := psh
    have hph : ph ≠ "" := hsplit _ _ _ hsh
    cases hsb : splitNames ((natDexMapping bodyIndex).getD bodyIndex) with
    | none =>
      simp only [Option.getD_none, Option.getD_some]
      by_cases hb : bodyData.fullName = "" <;> simp [jsOrStr, hb, hph]
    | some psb =>
      obtain ⟨pb, sb⟩ := psb
      have hpb : pb ≠ "" := hsplit _ _ _ hsb
      simp only [Option.getD_none, Option.getD_some]
      by_cases hs : sb = "" <;> simp [jsOrStr, hs, hpb, hph]

/-- An empty remap table used in concrete name instances. -/
def natDexDemo : Nat → Option Nat := fun _ => none

/-- A tiny split table covering ids 1 and 4, used in concrete instances. -/
def splitNamesDemo : Nat → Option (String × String) := fun i =>
  if i = 1 then some ("Bulba", "saur")
  else if i = 4 then some ("Char", "mander")
  else none

/-- The Bulbasaur roster record used in concrete instances. -/
def bulbasaurRec : Pokemon :=
  { mkStatsPokemon 45 49 49 65 65 45 with
    id := 1, fullName := "Bulbasaur", types := ["GRASS", "POISON"] }

/-- The Charmander roster record used in concrete instances. -/
def charmanderRec : Pokemon :=
  { mkStatsPokemon 39 52 43 60 50 65 with
    id := 4, fullName := "Charmander", types := ["FIRE"] }

/-- C3 witness: with the demo tables, the Bulbasaur/Charmander fusion name
matches the specification's computation and equals "Bulbamander". -/
theorem C3_fusion_name_witness :
    calculateName natDexDemo splitNamesDemo 1 4 bulbasaurRec charmanderRec =
      specCalculateName natDexDemo splitNamesDemo 1 4 bulbasaurRec charmanderRec ∧
    calculateName natDexDemo splitNamesDemo 1 4 bulbasaurRec charmanderRec =
      "Bulbamander" := by
  constructor
  · exact C3_fusion_name natDexDemo splitNamesDemo 1 4 bulbasaurRec charmanderRec
      (fun i v hv => by simp [natDexDemo] at hv)
      (fun i p s h => by
        unfold splitNamesDemo at h
        split_ifs at h <;> simp_all <;> obtain ⟨hp, hs⟩ := h <;> subst hp <;> decide)
  · decide

/-- Whitespace as matched by the JS patterns used in the service. -/
def isWsChar (c : Char) : Bool :=
  c = ' ' || c = '\t' || c = '\n' || c = '\r'

/-- JS `String.trim` on a character list. -/
def trimList (l : List Char) : List Char :=
  ((l.dropWhile isWsChar).reverse.dropWhile isWsChar).reverse

/-- JS `String.trim`. -/
def trimStr (s : String) : String :=
  String.mk (trimList s.data)

/-- One collapsing pass for `replace(/\s{2,}/g, ' ')`: every run of two or
more whitespace characters becomes a single space, single whitespace
characters are kept as they are.  The fuel is always the input length, which
suffices because every step consumes at least one character. -/
def collapseWsF : Nat → List Char → List Char
  | _, [] => []
  | 0, l => l
  | fuel + 1, c :: rest =>
    match rest with
    | [] => [c]
    | c2 :: _ =>
      if isWsChar c && isWsChar c2 then
        ' ' :: collapseWsF fuel (rest.dropWhile isWsChar)
      else
        c :: collapseWsF fuel rest

/-- `replace(/\s{2,}/g, ' ')` on a character list. -/
def collapseWs (l : List Char) : List Char :=
  collapseWsF l.length l

/-- Case folding as performed by the `/i` regex flag on the characters of the
domain suffix word (ASCII letters plus the accented é). -/
def lowerCharJs (c : Char) : Char :=
  if c = 'É' then 'é' else c.toLower

/-- `category.replace(/\s*Pokémon\s*$/i, '')`: drop a final case-insensitive
"Pokémon" together with the whitespace around it; leave the string unchanged
when it does not end that way. -/
def stripCategorySuffix (s : String) : String :=
  let rev1 := s.data.reverse.dropWhile isWsChar
  if (rev1.take 7).map lowerCharJs = "Pokémon".data.reverse.map lowerCharJs then
    String.mk ((rev1.drop 7).dropWhile isWsChar).reverse
  else s

/-- `FusionService.splitAndCombineCategory`: trim the domain suffix word from
both categories, join the non-empty parts with a single space (first
parameter first), and re-append the suffix word. -/
def splitAndCombineCategory (headCategory bodyCategory : String) : String :=
  let headTrimmed := trimStr (stripCategorySuffix headCategory)
  let bodyTrimmed := trimStr (stripCategorySuffix bodyCategory)
  let combined :=
    if headTrimmed ≠ "" ∧ bodyTrimmed ≠ "" then headTrimmed ++ " " ++ bodyTrimmed
    else jsOrStr headTrimmed bodyTrimmed
  combined ++ " Pokémon"

/-- `FusionService.calculateCategory`: the source's parameter order — the
body record is the first parameter and its category is passed as the first
argument of `splitAndCombineCategory`. -/
def calculateCategory (bodyPokemon headPokemon : Pokemon) : String :=
  splitAndCombineCategory (bodyPokemon.category.getD "") (headPokemon.category.getD "")

/-- The category of a generated fusion, as invoked from
`FusionService.generateFusion`: `calculateCategory(bodyData, headData)`. -/
def fusionCategory (headData bodyData : Pokemon) : String :=
  calculateCategory bodyData headData

/-- A head record whose category is "Seed Pokémon". -/
def seedHeadRec : Pokemon :=
  { mkStatsPokemon 0 0 0 0 0 0 with
    fullName := "Seedmon", category := some "Seed Pokémon" }

/-- A body record whose category is "Flame Pokémon". -/
def flameBodyRec : Pokemon :=
  { mkStatsPokemon 0 0 0 0 0 0 with
    fullName := "Flamemon", category := some "Flame Pokémon" }

/-- C5 counterexample: a head with category "Seed Pokémon" fused over a body
with category "Flame Pokémon" yields "Flame Seed Pokémon" — the body-derived
phrase comes first — not the claim's head-first "Seed Flame Pokémon". -/
theorem C5_category_counterexample :
    fusionCategory seedHeadRec flameBodyRec = "Flame Seed Pokémon" ∧
    fusionCategory seedHeadRec flameBodyRec ≠ "Seed Flame Pokémon" := by
  constructor <;> decide

/-- The fused category as worded by the amended claim: strip the trailing
domain suffix word from each category, concatenate the body-derived stripped
phrase first and the head-derived stripped phrase second with a single space
(using only the non-empty side when one is empty), and re-append the suffix
word. -/
def specCategory (headPokemon bodyPokemon : Pokemon) : String :=
  let headStripped := trimStr (stripCategorySuffix (headPokemon.category.getD ""))
  let bodyStripped := trimStr (stripCategorySuffix (bodyPokemon.category.getD ""))
  (if bodyStripped ≠ "" ∧ headStripped ≠ "" then bodyStripped ++ " " ++ headStripped
   else if bodyStripped ≠ "" then bodyStripped
   else headStripped) ++ " Pokémon"

/-- C5 (amended): the fused category strips the suffix word from both
categories and joins the body-derived phrase first and the head-derived
phrase second, re-appending the suffix word, with only the non-empty side
used when one side is empty. -/
theorem C5_category_amended (headPokemon bodyPokemon : Pokemon) :
    fusionCategory headPokemon bodyPokemon = specCategory headPokemon bodyPokemon := rfl

/-- One custom Pokédex record (also the shape of `calculateDexEntry`'s
result): descriptive text plus an author tag. -/
structure DexEntryRec where
  entry : String
  author : String
deriving Repr, DecidableEq

/-- The custom Pokédex store of `FusionService`: the `fusionId -> entries`
map in insertion order, plus the `isPokedexLoaded` flag. -/
structure PokedexState where
  customPokedexEntries : List (String × List DexEntryRec)
  isPokedexLoaded : Bool
deriving Repr, DecidableEq

/-- `Map.get` on the custom-entry index. -/
def lookupEntries (m : List (String × List DexEntryRec)) (k : String) :
    Option (List DexEntryRec) :=
  (m.find? (fun p => p.1 == k)).map (fun p => p.2)

/-- Global replacement of a literal pattern, the behaviour of JS
`replace(new RegExp(pattern, 'g'), replacement)` for patterns without regex
metacharacters, and of `replace(/POKENAME/g, ...)`.  Fuel is the input
length; every step consumes at least one character. -/
def replaceAllF (pat repl : List Char) : Nat → List Char → List Char
  | _, [] => []
  | 0, l => l
  | fuel + 1, c :: rest =>
    if !pat.isEmpty && pat.isPrefixOf (c :: rest) then
      repl ++ replaceAllF pat repl fuel (rest.drop (pat.length - 1))
    else
      c :: replaceAllF pat repl fuel rest

/-- Global literal replacement on strings. -/
def replaceAllStr (s pat repl : String) : String :=
  String.mk (replaceAllF pat.data repl.data s.data.length s.data)

/-- JS `text.split(separator, 2)` for a one-character separator: the first
segment, and the second segment when the separator occurs at all. -/
def splitOn2 (sep : Char) (l : List Char) : List Char × Option (List Char) :=
  match l.dropWhile (fun c => c != sep) with
  | [] => (l.takeWhile (fun c => c != sep), none)
  | _ :: tail => (l.takeWhile (fun c => c != sep), some (tail.takeWhile (fun c => c != sep)))

/-- The source's `endTextSplit[1] && endTextSplit[1] !== '' ? endTextSplit[1]
: endTextSplit[0]` selection on a 2-way split. -/
def chooseEnd (endTextSplit : List Char × Option (List Char)) : List Char :=
  match endTextSplit.2 with
  | some second => if second ≠ [] then second else endTextSplit.1
  | none => endTextSplit.1

/-- `FusionService.splitAndCombineText`: first segment of the first text,
second segment of the second text when present and non-empty (else its first
segment), joined by the separator plus a space, whitespace runs collapsed,
trimmed. -/
def splitAndCombineText (beginningTextFull endTextFull : String) (separator : Char) : String :=
  String.mk (trimList (collapseWs
    ((splitOn2 separator beginningTextFull.data).1 ++
      separator :: ' ' :: chooseEnd (splitOn2 separator endTextFull.data))))

/-- `FusionService.getCustomPokedexEntry`: `null` when the store is not
loaded or the pair has no entries, otherwise the randomly drawn entry of the
pair's list (the draw index is `rand` reduced modulo the list length). -/
def getCustomPokedexEntry (st : PokedexState) (rand : Nat)
    (headIndex bodyIndex : Nat) : Option DexEntryRec :=
  if !st.isPokedexLoaded then none
  else
    match lookupEntries st.customPokedexEntries
        (toString headIndex ++ "." ++ toString bodyIndex) with
    | none => none
    | some entries =>
      if entries.length = 0 then none
      else entries.get? (rand % entries.length)

/-- `FusionService.calculateDexEntry`, with the source's parameter order:
the FIRST record parameter is named `bodyPokemon` and the SECOND
`headPokemon`.  A custom entry is preferred with the POKENAME placeholder
substituted; otherwise the two name-substituted texts are spliced with
separator '.' and the fixed auto-spliced author is attached. -/
def calculateDexEntry (st : PokedexState) (rand : Nat)
    (bodyPokemon headPokemon : Pokemon) (fusionName : String)
    (headIndex bodyIndex : Nat) : DexEntryRec :=
  match getCustomPokedexEntry st rand headIndex bodyIndex with
  | some customEntry =>
    { entry := replaceAllStr customEntry.entry "POKENAME" fusionName
      author := customEntry.author }
  | none =>
    let bodyEntry :=
      replaceAllStr (bodyPokemon.pokedexEntry.getD "") bodyPokemon.fullName fusionName
    let headEntry :=
      replaceAllStr (headPokemon.pokedexEntry.getD "") headPokemon.fullName fusionName
    { entry := splitAndCombineText bodyEntry headEntry '.'
      author := "Auto-spliced Pokédex Entry" }

/-- The Pokédex entry of a generated fusion as invoked from
`FusionService.generateFusion` and `getFusionPokedex`: both call sites pass
`headData` as the first record argument and `bodyData` as the second, so
`headData` binds to the parameter named `bodyPokemon` and `bodyData` to the
parameter named `headPokemon`. -/
def fusionDexEntry (st : PokedexState) (rand : Nat)
    (headData bodyData : Pokemon) (fusionName : String)
    (headIndex bodyIndex : Nat) : DexEntryRec :=
  calculateDexEntry st rand headData bodyData fusionName headIndex bodyIndex

/-- A head record with Pokédex text "HHH. XXX.". -/
def dexHeadRec : Pokemon :=
  { mkStatsPokemon 0 0 0 0 0 0 with
    fullName := "Headmon", pokedexEntry := some "HHH. XXX." }

/-- A body record with Pokédex text "BBB. YYY.". -/
def dexBodyRec : Pokemon :=
  { mkStatsPokemon 0 0 0 0 0 0 with
    fullName := "Bodymon", pokedexEntry := some "BBB. YYY." }

/-- C4 counterexample: with no custom entry, head text "HHH. XXX." and body
text "BBB. YYY.", the auto-spliced entry is "HHH. YYY" — opening from the
HEAD record's first segment and closing from the BODY record's second
segment — not the claim's "BBB. XXX" (opening from the body, closing from
the head). -/
theorem C4_dex_entry_counterexample :
    (fusionDexEntry ⟨[], true⟩ 0 dexHeadRec dexBodyRec "Fuso" 1 2).entry =
      "HHH. YYY" ∧
    (fusionDexEntry ⟨[], true⟩ 0 dexHeadRec dexBodyRec "Fuso" 1 2).entry ≠
      "BBB. XXX" := by
  constructor <;> decide

/-- The first separator-delimited segment of a text (separator '.'). -/
def firstSegment (s : String) : String :=
  String.mk (s.data.takeWhile (fun c => c != '.'))

/-- The second separator-delimited segment of a text, when the separator
occurs. -/
def secondSegment (s : String) : Option String :=
  match s.data.dropWhile (fun c => c != '.') with
  | [] => none
  | _ :: tail => some (String.mk (tail.takeWhile (fun c => c != '.')))

/-- The closing chosen by the splice: the second segment when present and
non-empty, else the first segment. -/
def specClosing (s : String) : String :=
  match secondSegment s with
  | some second => if second ≠ "" then second else firstSegment s
  | none => firstSegment s

/-- The auto-spliced text as worded by the amended claim: the first segment
of the head-derived text as opening, the closing drawn from the body-derived
text, joined by the separator plus a single space, whitespace runs collapsed
to one space, trimmed. -/
def specSplice (headDerived bodyDerived : String) : String :=
  trimStr (String.mk (collapseWs
    ((firstSegment headDerived).data ++ '.' :: ' ' :: (specClosing bodyDerived).data)))

theorem splitOn2_fst (sep : Char) (l : List Char) :
    (splitOn2 sep l).1 = l.takeWhile (fun c => c != sep) := by
  unfold splitOn2
  split <;> rfl

theorem chooseEnd_eq_specClosing (e : String) :
    chooseEnd (splitOn2 '.' e.data) = (specClosing e).data := by
  unfold chooseEnd splitOn2 specClosing secondSegment firstSegment
  cases hd : e.data.dropWhile (fun c => c != '.') with
  | nil => simp
  | cons c tail =>
    by_cases hsec : tail.takeWhile (fun c => c != '.') = [] <;>
      simp [hsec, String.ext_iff]

theorem splitAndCombineText_eq_specSplice (b e : String) :
    splitAndCombineText b e '.' = specSplice b e := by
  simp only [splitAndCombineText, specSplice, trimStr]
  rw [splitOn2_fst, chooseEnd_eq_specClosing]
  rfl

/-- C4 (amended): for every fusion whose pair has no custom entry, the
auto-spliced Pokédex entry takes as its opening the first separator-delimited
segment of the HEAD record's text (head's own full name replaced by the
fusion name throughout) and as its closing the second segment of the BODY
record's text if non-empty, else its first segment; opening and closing are
joined by the separator plus a single space, whitespace runs collapsed, the
result trimmed, with the fixed auto-spliced author literal; when a custom
entry exists it is preferred, with every placeholder occurrence replaced by
the fusion name. -/
theorem C4_dex_entry_amended :
    (∀ (st : PokedexState) (rand : Nat) (headData bodyData : Pokemon)
      (fusionName : String) (headIndex bodyIndex : Nat),
      getCustomPokedexEntry st rand headIndex bodyIndex = none →
      fusionDexEntry st rand headData bodyData fusionName headIndex bodyIndex =
        { entry := specSplice
            (replaceAllStr (headData.pokedexEntry.getD "") headData.fullName fusionName)
            (replaceAllStr (bodyData.pokedexEntry.getD "") bodyData.fullName fusionName)
          author := "Auto-spliced Pokédex Entry" }) ∧
    (∀ (st : PokedexState) (rand : Nat) (headData bodyData : Pokemon)
      (fusionName : String) (headIndex bodyIndex : Nat) (customEntry : DexEntryRec),
      getCustomPokedexEntry st rand headIndex bodyIndex = some customEntry →
      fusionDexEntry st rand headData bodyData fusionName headIndex bodyIndex =
        { entry := replaceAllStr customEntry.entry "POKENAME" fusionName
          author := customEntry.author }) := by
  constructor
  · intro st rand headData bodyData fusionName headIndex bodyIndex h
    simp only [fusionDexEntry, calculateDexEntry, h]
    rw [splitAndCombineText_eq_specSplice]
  · intro st rand headData bodyData fusionName headIndex bodyIndex customEntry h
    simp only [fusionDexEntry, calculateDexEntry, h]

/-- C4 witness: a stored custom entry is preferred with the placeholder
substituted, and an absent pair falls back to the head-opening splice. -/
theorem C4_dex_entry_amended_witness :
    fusionDexEntry ⟨[("1.2", [⟨"POKENAME is strong.", "authorA"⟩])], true⟩ 0
        dexHeadRec dexBodyRec "Fuso" 1 2 =
      { entry := "Fuso is strong.", author := "authorA" } ∧
    fusionDexEntry ⟨[], true⟩ 0 dexHeadRec dexBodyRec "Fuso" 3 4 =
      { entry := specSplice "HHH. XXX." "BBB. YYY."
        author := "Auto-spliced Pokédex Entry" } := by
  constructor
  · have h := C4_dex_entry_amended.2
      ⟨[("1.2", [⟨"POKENAME is strong.", "authorA"⟩])], true⟩ 0
      dexHeadRec dexBodyRec "Fuso" 1 2 ⟨"POKENAME is strong.", "authorA"⟩ (by decide)
    exact h.trans (by decide)
  · have h := C4_dex_entry_amended.1 ⟨[], true⟩ 0 dexHeadRec dexBodyRec "Fuso" 3 4
      (by decide)
    exact h.trans (by decide)

/-- First-occurrence literal replacement, the behaviour of JS
`replace(pattern, replacement)` with a plain string pattern. -/
def replaceFirstL (pat repl : List Char) : List Char → List Char
  | [] => []
  | c :: rest =>
    if !pat.isEmpty && pat.isPrefixOf (c :: rest) then
      repl ++ rest.drop (pat.length - 1)
    else
      c :: replaceFirstL pat repl rest

/-- `sprite.replace('.png', '')`: drop the first occurrence of ".png". -/
def stripPngOnce (sprite : String) : String :=
  String.mk (replaceFirstL ".png".data [] sprite.data)

/-- `FusionService.VARIANT_REGEX` = `/^(\d{1,4}\.\d{1,4})[a-z]$/i`: one to
four digits, a dot, one to four digits, then exactly one ASCII letter (the
`i` flag makes `[a-z]` accept both cases). -/
def isVariant (fusionId : String) : Bool :=
  let l := fusionId.data
  let d1 := l.takeWhile Char.isDigit
  let r1 := l.dropWhile Char.isDigit
  decide (1 ≤ d1.length) && decide (d1.length ≤ 4) &&
    (match r1 with
     | '.' :: r2 =>
       let d2 := r2.takeWhile Char.isDigit
       let r3 := r2.dropWhile Char.isDigit
       decide (1 ≤ d2.length) && decide (d2.length ≤ 4) &&
         (match r3 with
          | [c] => c.isAlpha
          | _ => false)
     | _ => false)

/-- One record of the dex.json custom-entry source. -/
structure RawDexEntry where
  sprite : String
  entry : String
  author : String
deriving Repr, DecidableEq

/-- Append an entry to the list stored under a key, creating the key at the
end on first use — the behaviour of the source's `Map` population loop. -/
def addEntry (m : List (String × List DexEntryRec)) (k : String) (e : DexEntryRec) :
    List (String × List DexEntryRec) :=
  match m with
  | [] => [(k, [e])]
  | (k0, es) :: rest =>
    if k0 = k then (k0, es ++ [e]) :: rest
    else (k0, es) :: addEntry rest k e

/-- The indexing loop of `FusionService.initialize`: skip records with a
falsy sprite, entry or author, derive the fusion id by stripping the image
extension, skip variant ids, and group the rest by fusion id. -/
def buildPokedexIndex (pokedexData : List RawDexEntry) : List (String × List DexEntryRec) :=
  pokedexData.foldl
    (fun m entry =>
      if entry.sprite = "" ∨ entry.entry = "" ∨ entry.author = "" then m
      else
        if isVariant (stripPngOnce entry.sprite) then m
        else addEntry m (stripPngOnce entry.sprite) ⟨entry.entry, entry.author⟩)
    []

theorem mem_addEntry (m : List (String × List DexEntryRec)) (k : String)
    (e : DexEntryRec) :
    ∀ p ∈ addEntry m k e, p.1 = k ∨ ∃ q ∈ m, q.1 = p.1 := by
  induction m with
  | nil =>
    intro p hp
    simp only [addEntry, List.mem_singleton] at hp
    subst hp
    exact Or.inl rfl
  | cons hd rest ih =>
    obtain ⟨k0, es⟩ := hd
    intro p hp
    simp only [addEntry] at hp
    by_cases hk : k0 = k
    · rw [if_pos hk] at hp
      rcases List.mem_cons.mp hp with h | h
      · subst h
        exact Or.inl hk
      · exact Or.inr ⟨p, List.mem_cons_of_mem _ h, rfl⟩
    · rw [if_neg hk] at hp
      rcases List.mem_cons.mp hp with h | h
      · subst h
        exact Or.inr ⟨(k0, es), List.mem_cons_self _ _, rfl⟩
      · rcases ih p h with h1 | ⟨q, hq, hq1⟩
        · exact Or.inl h1
        · exact Or.inr ⟨q, List.mem_cons_of_mem _ hq, hq1⟩

theorem buildPokedexIndex_no_variant_key (pokedexData : List RawDexEntry) :
    ∀ m : List (String × List DexEntryRec),
      (∀ p ∈ m, isVariant p.1 = false) →
      ∀ p ∈ pokedexData.foldl
        (fun m entry =>
          if entry.sprite = "" ∨ entry.entry = "" ∨ entry.author = "" then m
          else
            if isVariant (stripPngOnce entry.sprite) then m
            else addEntry m (stripPngOnce entry.sprite) ⟨entry.entry, entry.author⟩)
        m, isVariant p.1 = false := by
  induction pokedexData with
  | nil =>
    intro m hm p hp
    simpa using hm p (by simpa using hp)
  | cons entry rest ih =>
    intro m hm p hp
    rw [List.foldl_cons] at hp
    refine ih _ ?_ p hp
    intro q hq
    by_cases h1 : entry.sprite = "" ∨ entry.entry = "" ∨ entry.author = ""
    · rw [if_pos h1] at hq
      exact hm q hq
    · rw [if_neg h1] at hq
      by_cases h2 : isVariant (stripPngOnce entry.sprite) = true
      · rw [if_pos h2] at hq
        exact hm q hq
      · rw [if_neg h2] at hq
        rcases mem_addEntry m _ _ q hq with h3 | ⟨r, hr, hr1⟩
        · rw [h3]
          exact Bool.not_eq_true _ ▸ h2
        · rw [← hr1]
          exact hm r hr

/-- C7: loading the custom-entry store discards variant keys before
indexing: no key of the built index ever matches the variant pattern, and a
source holding exactly a non-variant record "12.7.png" and a variant record
"12.7a.png" indexes exactly one entry list, under "12.7", containing only
the non-variant record's entry. -/
theorem C7_variant_filtering :
    (∀ (pokedexData : List RawDexEntry) (k : String),
      isVariant k = true →
      lookupEntries (buildPokedexIndex pokedexData) k = none) ∧
    (∀ ent1 auth1 ent2 auth2 : String,
      ent1 ≠ "" → auth1 ≠ "" → ent2 ≠ "" → auth2 ≠ "" →
      buildPokedexIndex
          [⟨"12.7.png", ent1, auth1⟩, ⟨"12.7a.png", ent2, auth2⟩] =
        [("12.7", [⟨ent1, auth1⟩])]) := by
  constructor
  · intro pokedexData k hk
    have hkeys := buildPokedexIndex_no_variant_key pokedexData [] (by simp)
    rw [lookupEntries, Option.map_eq_none', List.find?_eq_none]
    intro p hp
    have := hkeys p hp
    simp only [beq_iff_eq]
    intro hpk
    rw [hpk, hk] at this
    exact Bool.true_eq_false.mp this
  · intro ent1 auth1 ent2 auth2 h1 h2 h3 h4
    have hv1 : isVariant (stripPngOnce "12.7.png") = false := by decide
    have hv2 : isVariant (stripPngOnce "12.7a.png") = true := by decide
    have hs1 : stripPngOnce "12.7.png" = "12.7" := by decide
    have hv3 : isVariant "12.7" = false := by decide
    simp [buildPokedexIndex, hv1, hv2, hv3, hs1, h1, h2, h3, h4, addEntry]

/-- C7 witness: the concrete two-record source of the claim. -/
theorem C7_variant_filtering_witness :
    buildPokedexIndex
        [⟨"12.7.png", "entryOne", "authorOne"⟩, ⟨"12.7a.png", "entryTwo", "authorTwo"⟩] =
      [("12.7", [⟨"entryOne", "authorOne"⟩])] ∧
    lookupEntries
        (buildPokedexIndex
          [⟨"12.7.png", "entryOne", "authorOne"⟩, ⟨"12.7a.png", "entryTwo", "authorTwo"⟩])
        "12.7a" = none := by
  constructor
  · exact C7_variant_filtering.2 "entryOne" "authorOne" "entryTwo" "authorTwo"
      (by decide) (by decide) (by decide) (by decide)
  · exact C7_variant_filtering.1 _ "12.7a" (by decide)

/-- Possible outcomes of an async initialization routine: it either throws
(fatal) or returns normally with the resulting store state. -/
inductive InitOutcome where
  | fatal (message : String)
  | completed (st : PokedexState)
deriving Repr, DecidableEq

/-- Whether an initialization outcome is a raised failure. -/
def isFatalOutcome : InitOutcome → Bool
  | InitOutcome.fatal _ => true
  | InitOutcome.completed _ => false

/-- `FusionService.initialize`: the source wraps the read/parse/index steps
in try/catch whose catch block only logs and returns, so a missing or
malformed source (the `Except.error` case standing for the thrown exception)
completes normally with no custom entries and `isPokedexLoaded` still false,
while a parsed source builds the index and sets the flag. -/
def initializePokedex (src : Except String (List RawDexEntry)) : InitOutcome :=
  match src with
  | Except.error _ =>
    InitOutcome.completed { customPokedexEntries := [], isPokedexLoaded := false }
  | Except.ok pokedexData =>
    InitOutcome.completed
      { customPokedexEntries := buildPokedexIndex pokedexData, isPokedexLoaded := true }

/-- C8 counterexample: a missing custom-entry source does NOT fail fatally —
initialization completes normally with an empty, unloaded store. -/
theorem C8_load_failure_counterexample :
    isFatalOutcome (initializePokedex (Except.error "ENOENT: dex.json missing")) = false ∧
    initializePokedex (Except.error "ENOENT: dex.json missing") =
      InitOutcome.completed { customPokedexEntries := [], isPokedexLoaded := false } := by
  constructor <;> rfl

/-- C8 (amended): for every missing or malformed custom-entry source, the
startup load completes normally instead of raising: the store ends up empty
with `isPokedexLoaded` false, and every subsequent custom-entry lookup
returns none so the engine falls back to auto-generated entries. -/
theorem C8_load_failure_amended :
    (∀ message : String,
      initializePokedex (Except.error message) =
        InitOutcome.completed { customPokedexEntries := [], isPokedexLoaded := false }) ∧
    (∀ rand headIndex bodyIndex : Nat,
      getCustomPokedexEntry
        { customPokedexEntries := [], isPokedexLoaded := false }
        rand headIndex bodyIndex = none) :=
  ⟨fun _ => rfl, fun _ _ _ => rfl⟩

/-- The index state of `image.service.js`: the flat curated sprite-key set,
the per-head autogen body-id sets, and the initialization flag. -/
structure ImageState where
  customSprites : List String
  autogenSprites : List (Nat × List Nat)
  isInitialized : Bool
deriving Repr, DecidableEq

/-- The resolver's result: a locator plus an attribution tag. -/
structure ImageResult where
  imageUrl : String
  attribution : String
deriving Repr, DecidableEq

/-- `ImageService.NULL_SPRITE`. -/
def NULL_SPRITE : String := "/assets/sprites/null.png"

/-- The fallback result returned for a missing sprite. -/
def nullSpriteResult : ImageResult :=
  { imageUrl := NULL_SPRITE, attribution := "Missing sprite." }

/-- `this.autogenSprites.get(headId)`. -/
def autogenBodyIds (st : ImageState) (headId : Nat) : Option (List Nat) :=
  (st.autogenSprites.find? (fun p => p.1 == headId)).map (fun p => p.2)

/-- `ImageService.generateFusionImagePath`: null sprite when uninitialized,
then the curated index, then the autogen index, then the null sprite. -/
def generateFusionImagePath (st : ImageState) (headId bodyId : Nat) : ImageResult :=
  if !st.isInitialized then nullSpriteResult
  else
    let spriteKey := toString headId ++ "." ++ toString bodyId
    if st.customSprites.contains spriteKey then
      { imageUrl := "/data/infinite-fusion-graphics/custom/" ++ spriteKey ++ ".png"
        attribution := "custom" }
    else
      match autogenBodyIds st headId with
      | some headSprites =>
        if headSprites.contains bodyId then
          { imageUrl := "/data/infinite-fusion-graphics/autogen/" ++ toString headId ++
              "/" ++ spriteKey ++ ".png"
            attribution := "japeal" }
        else nullSpriteResult
      | none => nullSpriteResult

/-- C9: for every positive pair on an initialized resolver, resolution
follows the strict precedence curated index, then generated index, then
missing placeholder: a curated hit returns the curated locator with curated
attribution and is insensitive to the whole generated index; a curated miss
with a generated hit returns the generated locator; otherwise the fixed
missing-sprite placeholder is returned. -/
theorem C9_image_resolution_precedence (st : ImageState) (headId bodyId : Nat)
    (hh : 0 < headId) (hb : 0 < bodyId) (hinit : st.isInitialized = true) :
    (st.customSprites.contains (toString headId ++ "." ++ toString bodyId) = true →
      generateFusionImagePath st headId bodyId =
        { imageUrl := "/data/infinite-fusion-graphics/custom/" ++
            (toString headId ++ "." ++ toString bodyId) ++ ".png"
          attribution := "custom" } ∧
      ∀ ag : List (Nat × List Nat),
        generateFusionImagePath { st with autogenSprites := ag } headId bodyId =
          generateFusionImagePath st headId bodyId) ∧
    (st.customSprites.contains (toString headId ++ "." ++ toString bodyId) = false →
      ∀ headSprites : List Nat,
        autogenBodyIds st headId = some headSprites →
        headSprites.contains bodyId = true →
        generateFusionImagePath st headId bodyId =
          { imageUrl := "/data/infinite-fusion-graphics/autogen/" ++ toString headId ++
              "/" ++ (toString headId ++ "." ++ toString bodyId) ++ ".png"
            attribution := "japeal" }) ∧
    (st.customSprites.contains (toString headId ++ "." ++ toString bodyId) = false →
      (∀ headSprites : List Nat,
        autogenBodyIds st headId = some headSprites →
        headSprites.contains bodyId = false) →
      generateFusionImagePath st headId bodyId = nullSpriteResult) := by
  refine ⟨?_, ?_, ?_⟩
  · intro hc
    have hc' : (toString headId ++ "." ++ toString bodyId) ∈ st.customSprites := by
      simpa using hc
    constructor
    · simp [generateFusionImagePath, hinit, hc']
    · intro ag
      simp [generateFusionImagePath, hinit, hc']
  · intro hc headSprites hfind hmem
    have hc' : (toString headId ++ "." ++ toString bodyId) ∉ st.customSprites := by
      simpa using hc
    have hmem' : bodyId ∈ headSprites := by simpa using hmem
    simp [generateFusionImagePath, hinit, hc', hfind, hmem']
  · intro hc hnone
    have hc' : (toString headId ++ "." ++ toString bodyId) ∉ st.customSprites := by
      simpa using hc
    cases har : autogenBodyIds st headId with
    | none => simp [generateFusionImagePath, hinit, hc', har]
    | some headSprites =>
      have hm : bodyId ∉ headSprites := by simpa using hnone headSprites har
      simp [generateFusionImagePath, hinit, hc', har, hm]

/-- C9 witness: with the key "1.4" present in both indexes, resolution of
(1, 4) returns the curated locator with curated attribution. -/
theorem C9_image_resolution_precedence_witness :
    generateFusionImagePath
        { customSprites := ["1.4"], autogenSprites := [(1, [4])], isInitialized := true }
        1 4 =
      { imageUrl := "/data/infinite-fusion-graphics/custom/1.4.png"
        attribution := "custom" } := by
  have h := (C9_image_resolution_precedence
    { customSprites := ["1.4"], autogenSprites := [(1, [4])], isInitialized := true }
    1 4 (by decide) (by decide) rfl).1 (by decide)
  exact h.1.trans (by decide)

/-- JS `toLowerCase` on the ASCII names of the roster. -/
def toLowerStr (s : String) : String :=
  String.mk (s.data.map Char.toLower)

/-- The cache state of `pokemon.service.js`: the lowercased-name map, the
id map, the names array and the initialization flag. -/
structure PokemonState where
  pokemonData : List (String × Pokemon)
  pokemonById : List (Nat × Pokemon)
  pokemonNames : List String
  isInitialized : Bool
deriving Repr, DecidableEq

/-- `this.pokemonData.get(key)`. -/
def pokemonDataGet (st : PokemonState) (k : String) : Option Pokemon :=
  (st.pokemonData.find? (fun p => p.1 == k)).map (fun p => p.2)

/-- `PokemonService.isValidPokemon`: false for a falsy name or an
uninitialized cache, else membership of the lowercased name. -/
def isValidPokemon (st : PokemonState) (name : String) : Bool :=
  if name = "" then false
  else if !st.isInitialized then false
  else (pokemonDataGet st (toLowerStr name)).isSome

/-- `PokemonService.getRandomPokemonName`: null when uninitialized or empty,
else the name at the random draw (the draw is `rand` reduced modulo the
number of names). -/
def getRandomPokemonName (st : PokemonState) (rand : Nat) : Option String :=
  if !st.isInitialized || st.pokemonNames.length == 0 then none
  else st.pokemonNames.get? (rand % st.pokemonNames.length)

/-- `PokemonService.normalizePokemonName`: null for a falsy name or an
uninitialized cache, else the stored record's canonical full name. -/
def normalizePokemonName (st : PokemonState) (name : String) : Option String :=
  if name = "" then none
  else if !st.isInitialized then none
  else (pokemonDataGet st (toLowerStr name)).map (fun p => p.fullName)

/-- `PokemonService.getPokemonIndex` applied to a possibly-null name: 0 for
null, falsy or unknown names, else the record's id. -/
def getPokemonIndex (st : PokemonState) (name : Option String) : Nat :=
  match name with
  | none => 0
  | some n =>
    if n = "" then 0
    else if !st.isInitialized then 0
    else
      match pokemonDataGet st (toLowerStr n) with
      | some p => p.id
      | none => 0

/-- `PokemonService.getPokemonById`: null for id 0 (falsy) or an
uninitialized cache, else the id map lookup. -/
def getPokemonById (st : PokemonState) (id : Nat) : Option Pokemon :=
  if id = 0 then none
  else if !st.isInitialized then none
  else (st.pokemonById.find? (fun p => p.1 == id)).map (fun p => p.2)

/-- The head/body name options of a fusion request. -/
structure FusionOptions where
  headPokemon : Option String
  bodyPokemon : Option String
deriving Repr, DecidableEq

/-- The result shape of `FusionService.prepareFusionData`. -/
structure PreparedFusion where
  headPokemon : Option String
  bodyPokemon : Option String
  headIndex : Nat
  bodyIndex : Nat
  headData : Option Pokemon
  bodyData : Option Pokemon
deriving Repr, DecidableEq

/-- `FusionService.prepareFusionData`: per side, the supplied name is used
when truthy AND valid, otherwise a random name is drawn — an invalid
supplied name is silently replaced by a random pick, not rejected.  Indices
and records are then resolved from the selected names. -/
def prepareFusionData (st : PokemonState) (randHead randBody : Nat)
    (options : FusionOptions) : PreparedFusion :=
  let headPokemon :=
    match options.headPokemon with
    | some n =>
      if n ≠ "" ∧ isValidPokemon st n = true then some n
      else getRandomPokemonName st randHead
    | none => getRandomPokemonName st randHead
  let bodyPokemon :=
    match options.bodyPokemon with
    | some n =>
      if n ≠ "" ∧ isValidPokemon st n = true then some n
      else getRandomPokemonName st randBody
    | none => getRandomPokemonName st randBody
  { headPokemon := headPokemon
    bodyPokemon := bodyPokemon
    headIndex := getPokemonIndex st headPokemon
    bodyIndex := getPokemonIndex st bodyPokemon
    headData := getPokemonById st (getPokemonIndex st headPokemon)
    bodyData := getPokemonById st (getPokemonIndex st bodyPokemon) }

/-- Outcome of the HTTP controller's handling of a fusion request: a 400
client error carrying the message, or proceeding into the fusion service
with the validated (normalized) names. -/
inductive ControllerOutcome where
  | clientError (message : String)
  | proceed (headPokemon bodyPokemon : Option String)
deriving Repr, DecidableEq

/-- The per-side validation block of `FusionController.getFusion`: a falsy
query value is skipped (null name), otherwise the name must normalize
against the roster or the request is rejected with a message echoing the
offending input. -/
def validateSide (st : PokemonState) (side : String) (q : Option String) :
    Except String (Option String) :=
  match q with
  | none => Except.ok none
  | some s =>
    if s = "" then Except.ok none
    else
      match normalizePokemonName st s with
      | none =>
        Except.error
          ("Invalid " ++ side ++ " Pokemon: " ++ s ++
            ". Use GET /api/pokemon to see available Pokemon.")
      | some n => Except.ok (some n)

/-- `FusionController.getFusion` up to the service invocation: validate the
head then the body query parameter, returning the 400 outcome on the first
failure, else proceeding with the normalized names. -/
def controllerGetFusion (st : PokemonState) (head body : Option String) :
    ControllerOutcome :=
  match validateSide st "head" head with
  | Except.error m => ControllerOutcome.clientError m
  | Except.ok headPokemon =>
    match validateSide st "body" body with
    | Except.error m => ControllerOutcome.clientError m
    | Except.ok bodyPokemon => ControllerOutcome.proceed headPokemon bodyPokemon

/-- A one-record initialized roster used in concrete resolution instances. -/
def rosterDemo : PokemonState :=
  { pokemonData := [("bulbasaur", bulbasaurRec)]
    pokemonById := [(1, bulbasaurRec)]
    pokemonNames := ["Bulbasaur"]
    isInitialized := true }

/-- C6 counterexample: supplying the invalid name "NotARealCreature" to the
fusion service's resolution step does not fail — the service silently
substitutes a random roster creature (here Bulbasaur) and produces fully
resolved fusion data. -/
theorem C6_unknown_name_counterexample :
    (prepareFusionData rosterDemo 0 0
        { headPokemon := some "NotARealCreature", bodyPokemon := none }).headPokemon =
      some "Bulbasaur" ∧
    (some "Bulbasaur" : Option String) ≠ some "NotARealCreature" ∧
    (prepareFusionData rosterDemo 0 0
        { headPokemon := some "NotARealCreature", bodyPokemon := none }).headData =
      some bulbasaurRec := by
  refine ⟨by decide, by decide, by decide⟩

/-- C6 (amended): invalid supplied names are rejected in the HTTP
controller, which returns a client error carrying the offending input before
the fusion service is invoked; the service's own resolution step, however,
silently substitutes a random roster creature for an invalid supplied name
instead of failing. -/
theorem C6_unknown_name_amended :
    (∀ (st : PokemonState) (n : String) (body : Option String),
      n ≠ "" → normalizePokemonName st n = none →
      controllerGetFusion st (some n) body =
        ControllerOutcome.clientError
          ("Invalid head Pokemon: " ++ n ++
            ". Use GET /api/pokemon to see available Pokemon.")) ∧
    (∀ (st : PokemonState) (randHead randBody : Nat) (n : String) (body : Option String),
      isValidPokemon st n = false →
      (prepareFusionData st randHead randBody
          { headPokemon := some n, bodyPokemon := body }).headPokemon =
        getRandomPokemonName st randHead) := by
  constructor
  · intro st n body hne hnorm
    simp [controllerGetFusion, validateSide, hne, hnorm]
  · intro st randHead randBody n body hval
    simp [prepareFusionData, hval]

/-- C6 witness: the invalid name "NotARealCreature" is rejected by the
controller with the offending input echoed, while the service substitutes
the random pick. -/
theorem C6_unknown_name_amended_witness :
    controllerGetFusion rosterDemo (some "NotARealCreature") none =
      ControllerOutcome.clientError
        "Invalid head Pokemon: NotARealCreature. Use GET /api/pokemon to see available Pokemon." ∧
    (prepareFusionData rosterDemo 0 0
        { headPokemon := some "NotARealCreature", bodyPokemon := none }).headPokemon =
      getRandomPokemonName rosterDemo 0 := by
  constructor
  · have h := C6_unknown_name_amended.1 rosterDemo "NotARealCreature" none
      (by decide) (by decide)
    exact h.trans (by decide)
  · exact C6_unknown_name_amended.2 rosterDemo 0 0 "NotARealCreature" none (by decide)
